import Mathlib

set_option linter.all false

/-!
Shallow embedding of the Deskly website auth relay (`src/server.js`):
the token codec (`signToken` / `verifyToken`, delegating to the
`jsonwebtoken` library, modelled as a signed record with an idealized
MAC), the HTML-escaping helper `esc`, the OAuth callback handler
`app.get('/auth/callback')`, the session endpoint `app.get('/api/me')`,
and the two HTML templates `desktopCallbackPage` / `accountPage`.

JavaScript strings that may be `null`/`undefined`/`''` are modelled as
`String` with `""` standing for the falsy cases wherever the source only
ever tests truthiness, and as `Option String` where absence is
distinguishable from emptiness (query parameters, cookies, headers).
-/

/-- JS truthiness of an optional string value: `undefined`, `null` and
`''` are falsy, every other string is truthy. -/
def jsTruthy : Option String → Bool
  | none => false
  | some s => s ≠ ""

/-- JS truthiness for an `Option String` field of a decoded object
(`user.picture ? … : …`). -/
def optTruthy : Option String → Bool
  | none => false
  | some s => s ≠ ""

/-- The identity record returned by the provider's
`authenticateWithCode` (WorkOS user). `""` models `null`/absent fields,
matching the truthiness tests the source performs on them. -/
structure User where
  id : String
  email : String
  firstName : String
  lastName : String
  profilePictureUrl : String
  deriving DecidableEq, Repr

/-- Server configuration derived from the environment
(`isProduction`, `DESKTOP_SCHEME`, `JWT_KEY`). -/
structure Config where
  isProduction : Bool
  desktopScheme : String
  key : String
  deriving DecidableEq, Repr

/- ── `esc` (server.js lines 93–101) ──────────────────────────────────
The source applies five sequential global replacements
(`&`→`&amp;`, `<`→`&lt;`, `>`→`&gt;`, `"`→`&quot;`, `'`→`&#39;`).
Because no replacement string contains a character replaced by a later
pass, the composition acts independently on each character of the
input, which is how it is written here. -/

/-- Escape one character the way `esc` rewrites it. -/
def escChar (c : Char) : String :=
  if c = '&' then "&amp;"
  else if c = '<' then "&lt;"
  else if c = '>' then "&gt;"
  else if c = Char.ofNat 34 then "&quot;"
  else if c = Char.ofNat 39 then "&#39;"
  else String.singleton c

/-- `esc` over the character list of the input. -/
def escList : List Char → String
  | [] => ""
  | c :: r => escChar c ++ escList r

/-- Escape HTML entities to prevent XSS in template strings
(server.js `esc`).  `esc('') = ''` agrees with the `if (!str)` early
return. -/
def esc (s : String) : String := escList s.data

/- ── `encodeURIComponent` (ECMAScript builtin used at line 238) ───── -/

/-- Characters `encodeURIComponent` leaves unescaped. -/
def isUnreservedChar (c : Char) : Bool :=
  c.isAlphanum || c = '-' || c = '_' || c = '.' || c = '!' || c = '~' ||
    c = '*' || c = Char.ofNat 39 || c = '(' || c = ')'

/-- Upper-case hexadecimal digit. -/
def hexDigit (n : Nat) : Char :=
  if n < 10 then Char.ofNat (48 + n) else Char.ofNat (55 + n)

/-- Percent-encode one byte. -/
def percentByte (b : Nat) : String :=
  String.mk ['%', hexDigit (b / 16), hexDigit (b % 16)]

/-- UTF-8 bytes of a code point. -/
def utf8Bytes (n : Nat) : List Nat :=
  if n < 128 then [n]
  else if n < 2048 then [192 + n / 64, 128 + n % 64]
  else if n < 65536 then [224 + n / 4096, 128 + (n / 64) % 64, 128 + n % 64]
  else [240 + n / 262144, 128 + (n / 4096) % 64, 128 + (n / 64) % 64, 128 + n % 64]

/-- The ECMAScript `encodeURIComponent` function. -/
def encodeURIComponent (s : String) : String :=
  String.join (s.data.map (fun c =>
    if isUnreservedChar c then String.singleton c
    else String.join ((utf8Bytes c.toNat).map percentByte)))

/- ── Token codec (server.js `signToken` / `verifyToken`) ─────────────
`jsonwebtoken` is an external library: it is modelled as a signed,
expiring record.  The signature is idealized as the signing key itself
(an ideal MAC: verification succeeds exactly for tokens produced under
the key the verifier holds).  The JWT wire format is replaced by an
explicit injective serialization so that tokens are genuine strings,
as they are everywhere in the source. -/

/-- The claims `jwt.sign` embeds in the token (server.js lines 104–112). -/
structure Claims where
  sub : String
  email : String
  name : String
  picture : Option String
  deriving DecidableEq, Repr

/-- A decoded token record: claims plus the `iat`/`exp` fields
`jsonwebtoken` adds (seconds). -/
structure Token where
  claims : Claims
  iat : Nat
  exp : Nat
  sig : String
  deriving DecidableEq, Repr

/-- `expiresIn: '30d'` in seconds. -/
def THIRTY_DAYS_S : Nat := 30 * 24 * 60 * 60

/-- `email.split('@')[0]` — the local part of the email address: the
characters before the first `'@'` (the whole string when there is
none, which is exactly what `split` followed by `[0]` yields). -/
def emailLocalPart (email : String) : String :=
  String.mk (email.data.takeWhile (fun c => c ≠ '@'))

/-- The display name `signToken` stores: first name (plus last name
after a space when present), else the email local part
(server.js lines 108–110). -/
def tokenClaims (u : User) : Claims :=
  { sub := u.id
    email := u.email
    name :=
      if u.firstName ≠ "" then
        u.firstName ++ (if u.lastName ≠ "" then " " ++ u.lastName else "")
      else emailLocalPart u.email
    picture := if u.profilePictureUrl ≠ "" then some u.profilePictureUrl else none }

/- Serialization: each field becomes a run of tagged pairs
`('c', contentChar)`, fields are separated by the pair `('s','s')`, and
the pair list is flattened to characters.  `iat`/`exp` are stored in
unary as runs of `'x'`.  Field order:
sub, email, name, picture (empty = none), iat, exp, sig. -/

/-- Tag every content character. -/
def fieldEnc (f : List Char) : List (Char × Char) :=
  f.map (fun c => ('c', c))

/-- Join tagged fields with the separator pair. -/
def encPairs : List (List Char) → List (Char × Char)
  | [] => []
  | [f] => fieldEnc f
  | f :: rest => fieldEnc f ++ ('s', 's') :: encPairs rest

/-- Flatten a pair list to characters. -/
def pairsFlat (l : List (Char × Char)) : List Char :=
  l.flatMap (fun p => [p.1, p.2])

/-- Regroup characters two at a time; fails on odd length. -/
def toPairs : List Char → Option (List (Char × Char))
  | [] => some []
  | a :: b :: r => (toPairs r).map (fun l => (a, b) :: l)
  | [_] => none

/-- Split a pair list on the separator pair. -/
def splitFields : List (Char × Char) → List (List (Char × Char))
  | [] => [[]]
  | p :: r =>
    if p = ('s', 's') then [] :: splitFields r
    else
      match splitFields r with
      | [] => [[p]]
      | g :: gs => (p :: g) :: gs

/-- Recover a field's content string. -/
def fieldStr (g : List (Char × Char)) : String :=
  String.mk (g.map (fun p => p.2))

/-- Serialize a token record to its wire string. -/
def encodeToken (t : Token) : String :=
  String.mk (pairsFlat (encPairs
    [t.claims.sub.data, t.claims.email.data, t.claims.name.data,
     (t.claims.picture.getD "").data,
     List.replicate t.iat 'x', List.replicate t.exp 'x', t.sig.data]))

/-- Parse a wire string back to a token record; `none` on anything
malformed. -/
def decodeToken (s : String) : Option Token :=
  match toPairs s.data with
  | none => none
  | some ps =>
    match splitFields ps with
    | [a, b, c, d, e, f, g] =>
      some { claims :=
               { sub := fieldStr a, email := fieldStr b, name := fieldStr c,
                 picture := if fieldStr d = "" then none else some (fieldStr d) }
             iat := e.length, exp := f.length, sig := fieldStr g }
    | _ => none

/-- `signToken(user)` (server.js lines 103–116): build the claims, sign
with the server key, fixed 30-day expiry from `iat` (issuance time in
seconds). -/
def signToken (u : User) (key : String) (iat : Nat) : String :=
  encodeToken { claims := tokenClaims u, iat := iat, exp := iat + THIRTY_DAYS_S, sig := key }

/-- The decoded payload `jwt.verify` returns. -/
structure Decoded where
  claims : Claims
  iat : Nat
  exp : Nat
  deriving DecidableEq, Repr

/-- `verifyToken(token)` (server.js lines 118–124): decode, check the
signature against the server key and that the token is unexpired
(`jsonwebtoken` rejects when `now ≥ exp`); any failure collapses to
`none`. -/
def verifyToken (s : String) (key : String) (now : Nat) : Option Decoded :=
  match decodeToken s with
  | none => none
  | some t =>
    if t.sig = key ∧ now < t.exp then
      some { claims := t.claims, iat := t.iat, exp := t.exp }
    else none

/- ── HTML templates (server.js `desktopCallbackPage` lines 287–357 and
`accountPage` lines 359–436) ─────────────────────────────────────────
The template literals are transcribed verbatim; `\x7b`/`\x7d` denote
literal braces and `\x27` a literal apostrophe.  The `${…}`
interpolation points become the concatenation seams, each wrapped in
`esc` exactly as the source wraps it. -/

/-- The `displayName` local of `desktopCallbackPage` (lines 288–290):
first name (plus last name after a space when present), else the FULL
email address. -/
def resolveDisplayName (u : User) : String :=
  if u.firstName ≠ "" then
    u.firstName ++ (if u.lastName ≠ "" then " " ++ u.lastName else "")
  else u.email

def dcp0 : String := "<!DOCTYPE html>\n<html lang=\"en\">\n<head>\n    <meta charset=\"UTF-8\" />\n    <meta name=\"viewport\" content=\"width=device-width, initial-scale=1\" />\n    <title>Signed In — Deskly</title>\n    <style>\n        * \x7b margin:0; padding:0; box-sizing:border-box; \x7d\n        body \x7b\n            font-family: \x27Inter\x27, system-ui, -apple-system, sans-serif;\n            background: #020617;\n            color: #E8E6EB;\n            display: flex;\n            align-items: center;\n            justify-content: center;\n            min-height: 100vh;\n        \x7d\n        .card \x7b\n            background: #0F1117;\n            border: 1px solid rgba(148,163,184,0.15);\n            border-radius: 20px;\n            padding: 40px 32px;\n            max-width: 440px;\n            width: 100%;\n            text-align: center;\n        \x7d\n        .check \x7b font-size: 48px; margin-bottom: 16px; \x7d\n        h1 \x7b font-size: 1.5rem; margin-bottom: 8px; font-weight: 600; \x7d\n        .email \x7b color: #818CF8; font-weight: 500; \x7d\n        .hint \x7b color: #6b7280; margin: 16px 0 24px; line-height: 1.5; font-size: 0.9rem; \x7d\n        .btn \x7b\n            display: inline-block;\n            padding: 12px 28px;\n            border-radius: 999px;\n            border: none;\n            background: linear-gradient(135deg, #818CF8, #6366F1);\n            color: white;\n            font-weight: 600;\n            font-size: 0.95rem;\n            cursor: pointer;\n            text-decoration: none;\n        \x7d\n        .btn:hover \x7b filter: brightness(1.08); \x7d\n        .manual \x7b margin-top: 16px; font-size: 0.8rem; color: #4b5563; \x7d\n        .manual a \x7b color: #818CF8; \x7d\n    </style>\n</head>\n<body>\n    <div class=\"card\">\n        <div class=\"check\">✓</div>\n        <h1>Welcome, "

def dcp1 : String := "!</h1>\n        <p class=\"email\">"

def dcp2 : String := "</p>\n        <p class=\"hint\">You\x27re all set. Click below to return to the Deskly app.</p>\n        <a href=\""

def dcp3 : String := "\" class=\"btn\">Open Deskly App</a>\n        <p class=\"manual\">\n            Button not working? <a href=\""

def dcp4 : String := "\">Click here</a> or copy this link:<br/>\n            <code style=\"font-size:0.7rem;color:#6b7280;word-break:break-all;\">"

def dcp5 : String := "</code>\n        </p>\n    </div>\n    <script>\n        // Auto-redirect to the deep link\n        setTimeout(() => \x7b window.location.href = \""

def dcp6 : String := "\"; \x7d, 1500);\n    </script>\n</body>\n</html>"

/-- `desktopCallbackPage(user, deepLink)` — the auto-redirecting
deep-link delivery page. -/
def desktopCallbackPage (u : User) (deepLink : String) : String :=
  dcp0 ++ esc (resolveDisplayName u) ++ dcp1 ++ esc u.email ++ dcp2 ++
    esc deepLink ++ dcp3 ++ esc deepLink ++ dcp4 ++ esc deepLink ++ dcp5 ++
    esc deepLink ++ dcp6

/-- `user.name?.charAt(0)?.toUpperCase() || '?'`. -/
def nameInitial (s : String) : String :=
  if s = "" then "?" else (s.take 1).toUpper

def acc0 : String := "<!DOCTYPE html>\n<html lang=\"en\">\n<head>\n    <meta charset=\"UTF-8\" />\n    <meta name=\"viewport\" content=\"width=device-width, initial-scale=1\" />\n    <title>Account — Deskly</title>\n    <style>\n        * \x7b margin:0; padding:0; box-sizing:border-box; \x7d\n        body \x7b\n            font-family: \x27Inter\x27, system-ui, -apple-system, sans-serif;\n            background: #020617;\n            color: #E8E6EB;\n            display: flex;\n            align-items: center;\n            justify-content: center;\n            min-height: 100vh;\n        \x7d\n        .card \x7b\n            background: #0F1117;\n            border: 1px solid rgba(148,163,184,0.15);\n            border-radius: 20px;\n            padding: 40px 32px;\n            max-width: 440px;\n            width: 100%;\n        \x7d\n        .avatar \x7b\n            width: 64px; height: 64px;\n            border-radius: 50%;\n            background: linear-gradient(135deg, #818CF8, #6366F1);\n            display: flex; align-items: center; justify-content: center;\n            font-size: 1.5rem; font-weight: 700; color: white;\n            margin-bottom: 16px;\n        \x7d\n        .avatar img \x7b width: 100%; height: 100%; border-radius: 50%; object-fit: cover; \x7d\n        h1 \x7b font-size: 1.4rem; font-weight: 600; margin-bottom: 4px; \x7d\n        .email \x7b color: #A8A5B0; margin-bottom: 24px; \x7d\n        .info-row \x7b\n            display: flex; justify-content: space-between; align-items: center;\n            padding: 12px 0;\n            border-top: 1px solid rgba(148,163,184,0.1);\n        \x7d\n        .info-label \x7b color: #6b7280; font-size: 0.9rem; \x7d\n        .info-value \x7b font-weight: 500; \x7d\n        .btn-logout \x7b\n            display: block; width: 100%; margin-top: 24px;\n            padding: 12px 0; border-radius: 12px; border: 1px solid #EF4444;\n            background: transparent; color: #EF4444; font-weight: 600;\n            cursor: pointer; font-size: 0.95rem;\n        \x7d\n        .btn-logout:hover \x7b background: rgba(239,68,68,0.1); \x7d\n    </style>\n</head>\n<body>\n    <div class=\"card\">\n        <div class=\"avatar\">\n            "

def acc1 : String := "\n        </div>\n        <h1>"

def acc2 : String := "</h1>\n        <p class=\"email\">"

def acc3 : String := "</p>\n        <div class=\"info-row\">\n            <span class=\"info-label\">User ID</span>\n            <span class=\"info-value\" style=\"font-size:0.8rem;color:#6b7280;\">"

def acc4 : String := "</span>\n        </div>\n        <div class=\"info-row\">\n            <span class=\"info-label\">Auth Provider</span>\n            <span class=\"info-value\">WorkOS</span>\n        </div>\n        <form action=\"/auth/logout\" method=\"post\">\n            <button type=\"submit\" class=\"btn-logout\">Sign Out</button>\n        </form>\n    </div>\n</body>\n</html>"

/-- `accountPage(user)` over the decoded token claims: avatar image
when `user.picture` is truthy, else the escaped upper-cased name
initial; name falling back to `'Deskly User'`. -/
def accountPage (c : Claims) : String :=
  acc0 ++
    (if optTruthy c.picture then
      "<img src=\"" ++ esc (c.picture.getD "") ++ "\" alt=\"avatar\" />"
    else esc (nameInitial c.name)) ++
    acc1 ++ esc (if c.name ≠ "" then c.name else "Deskly User") ++
    acc2 ++ esc c.email ++ acc3 ++ esc c.sub ++ acc4

/- ── OAuth callback handler (server.js lines 191–244) ────────────────
The `state` query parameter is fed to `JSON.parse` and then only the
properties `n`, `source` and `device_id` are read.  Requests are
therefore modelled at the granularity of that parse result: a JSON
field is absent (`undefined`), a string, or some non-string JSON value
(which can never equal a string under `!==` and is never `'web'`). -/

/-- A property of the parsed `state` object. -/
inductive JField where
  | absent
  | str (s : String)
  | nonStr
  deriving DecidableEq, Repr

/-- Outcome of `JSON.parse(state)`.  `malformed` covers both a parse
exception and a parse to `null` (where the subsequent `.n` access
throws): either way control lands in the empty `catch` and the default
context is kept. -/
inductive ParsedState where
  | malformed
  | obj (n source device_id : JField)
  deriving DecidableEq, Repr

/-- `parsed.source || 'desktop'` followed only by `=== 'web'` and the
deep-link branch: a non-string truthy value behaves exactly like
`'desktop'` there, so it is collapsed to the default. -/
def fieldOr (f : JField) (d : String) : String :=
  match f with
  | .str s => if s ≠ "" then s else d
  | _ => d

/-- `parsed.device_id || null`. -/
def fieldOpt : JField → Option String
  | .str s => if s ≠ "" then some s else none
  | _ => none

/-- The inbound callback request: `req.query.code`, the parse outcome
of `req.query.state` (`none` = absent or empty, hence falsy), and the
`oauth_nonce` cookie. -/
structure CallbackRequest where
  code : Option String
  state : Option ParsedState
  oauthNonce : Option String
  deriving Repr

/-- Lines 199–210: `none` = the 403 CSRF rejection; `some (source,
device_id)` = the flow context to proceed with. -/
def stateCheck (st : Option ParsedState) (cookie : Option String) :
    Option (String × Option String) :=
  match st with
  | none => some ("desktop", none)
  | some .malformed => some ("desktop", none)
  | some (.obj n src dev) =>
    match cookie with
    | none => none
    | some cv =>
      if cv = "" then none
      else if n = JField.str cv then some (fieldOr src "desktop", fieldOpt dev)
      else none

/-- Options attached to a `res.cookie` call. -/
structure CookieOpts where
  httpOnly : Bool
  secure : Bool
  sameSite : String
  maxAgeMs : Option Nat
  cookiePath : Option String
  deriving DecidableEq, Repr

/-- The session-cookie options of line 225–230: HTTP-only, `secure` in
production, `SameSite=Lax`, 30-day max-age. -/
def sessionCookieOpts (cfg : Config) : CookieOpts :=
  { httpOnly := true, secure := cfg.isProduction, sameSite := "lax",
    maxAgeMs := some (30 * 24 * 60 * 60 * 1000), cookiePath := none }

/-- Response body of the callback route. -/
inductive RBody where
  | text (s : String)
  | html (s : String)
  | redirectTo (loc : String)
  | errorPage
  deriving DecidableEq, Repr

/-- Everything the callback handler does to the response, plus the
number of provider `authenticateWithCode` calls it made. -/
structure CallbackResult where
  status : Nat
  body : RBody
  cookiesSet : List (String × String × CookieOpts)
  cookiesCleared : List (String × Option String)
  providerCalls : Nat
  deriving Repr

/-- `app.get('/auth/callback')` (lines 191–244).  `exchange` models
`getWorkOS().userManagement.authenticateWithCode`, with `none` for a
thrown provider error (which the outer catch turns into the generic
500 error page). -/
def authCallback (cfg : Config) (exchange : String → Option User)
    (now : Nat) (req : CallbackRequest) : CallbackResult :=
  if ¬ jsTruthy req.code then
    { status := 400, body := .text "Missing authorization code from WorkOS",
      cookiesSet := [], cookiesCleared := [], providerCalls := 0 }
  else
    match stateCheck req.state req.oauthNonce with
    | none =>
      { status := 403,
        body := .text "OAuth state mismatch — possible CSRF. Please try signing in again.",
        cookiesSet := [], cookiesCleared := [], providerCalls := 0 }
    | some (source, _device) =>
      let cleared := [("oauth_nonce", some "/auth/callback")]
      match exchange (req.code.getD "") with
      | none =>
        { status := 500, body := .errorPage,
          cookiesSet := [], cookiesCleared := cleared, providerCalls := 1 }
      | some user =>
        let token := signToken user cfg.key now
        let cookieSet := [("deskly_token", token, sessionCookieOpts cfg)]
        if source = "web" then
          { status := 302, body := .redirectTo "/account",
            cookiesSet := cookieSet, cookiesCleared := cleared, providerCalls := 1 }
        else
          let deepLink :=
            cfg.desktopScheme ++ "://auth/callback?token=" ++ encodeURIComponent token
          { status := 200, body := .html (desktopCallbackPage user deepLink),
            cookiesSet := cookieSet, cookiesCleared := cleared, providerCalls := 1 }

/- ── `/api/me` (server.js lines 261–283) ─────────────────────────── -/

/-- Body of a `/api/me` response. -/
inductive MeBody where
  | err (msg : String)
  | ok (user : Decoded)
  deriving DecidableEq, Repr

/-- A `/api/me` response. -/
structure MeResult where
  status : Nat
  body : MeBody
  deriving DecidableEq, Repr

/-- ECMAScript `String.prototype.startsWith`. -/
def strStartsWith (s pre : String) : Bool :=
  pre.data.isPrefixOf s.data

/-- ECMAScript `String.prototype.slice(n)` for a non-negative `n`:
drop the first `n` characters. -/
def strSliceFrom (s : String) (n : Nat) : String :=
  String.mk (s.data.drop n)

/-- `app.get('/api/me')`: prefer a `Bearer` Authorization header,
fall back to the `deskly_token` cookie, 401 when neither yields a
truthy token or when verification fails. -/
def apiMe (key : String) (now : Nat) (authHeader : Option String)
    (cookie : Option String) : MeResult :=
  let token : Option String :=
    match authHeader with
    | some h =>
      if strStartsWith h "Bearer " then some (strSliceFrom h 7)
      else if jsTruthy cookie then cookie else none
    | none => if jsTruthy cookie then cookie else none
  match token with
  | none => { status := 401, body := .err "Missing token" }
  | some t =>
    if t = "" then { status := 401, body := .err "Missing token" }
    else
      match verifyToken t key now with
      | none => { status := 401, body := .err "Invalid or expired token" }
      | some user => { status := 200, body := .ok user }

/- ── Substring search (used to state absence of raw tags / of the
token inside a redirect URL) ────────────────────────────────────── -/

/-- `pat` occurs as a contiguous substring of `l`. -/
def hasSub (pat : List Char) : List Char → Bool
  | [] => pat.isEmpty
  | c :: t => pat.isPrefixOf (c :: t) || hasSub pat t

/- ── Concrete fixtures used by witnesses and counterexamples ─────── -/

/-- A provider identity with no first name (falls back to the email). -/
def cxUser : User :=
  { id := "u1", email := "a@b.com", firstName := "", lastName := "",
    profilePictureUrl := "" }

/-- A provider identity with first and last name. -/
def cxUserNamed : User :=
  { id := "u2", email := "ann@x.io", firstName := "Ann", lastName := "Lee",
    profilePictureUrl := "" }

def cxConfig : Config :=
  { isProduction := false, desktopScheme := "deskly", key := "secret" }

/-- A provider that accepts every code. -/
def cxExchange : String → Option User := fun _ => some cxUser

/-- Callback whose state nonce disagrees with the nonce cookie. -/
def cxReqMismatch : CallbackRequest :=
  { code := some "c", state := some (.obj (.str "a") .absent .absent),
    oauthNonce := some "b" }

/-- Callback with a matching nonce and `source = 'web'`. -/
def cxReqWeb : CallbackRequest :=
  { code := some "c", state := some (.obj (.str "a") (.str "web") .absent),
    oauthNonce := some "a" }

/-- Callback with no state at all (desktop default). -/
def cxReqDesktop : CallbackRequest :=
  { code := some "c", state := none, oauthNonce := none }

/-- Callback with no authorization code. -/
def cxReqNoCode : CallbackRequest :=
  { code := none, state := none, oauthNonce := none }

/- ── Codec round-trip lemmas ──────────────────────────────────────── -/

theorem toPairs_pairsFlat (l : List (Char × Char)) : toPairs (pairsFlat l) = some l := by
  induction l with
  | nil => rfl
  | cons p r ih =>
    obtain ⟨a, b⟩ := p
    have hstep : pairsFlat ((a, b) :: r) = a :: b :: pairsFlat r := rfl
    rw [hstep]
    simp [toPairs, ih]

theorem splitFields_sep (f : List Char) (r : List (Char × Char)) :
    splitFields (fieldEnc f ++ ('s', 's') :: r) = fieldEnc f :: splitFields r := by
  induction f with
  | nil => simp [fieldEnc, splitFields]
  | cons c cs ih =>
    simp [fieldEnc] at ih ⊢
    simp [splitFields, ih]

theorem splitFields_last (f : List Char) :
    splitFields (fieldEnc f) = [fieldEnc f] := by
  induction f with
  | nil => rfl
  | cons c cs ih => simp [fieldEnc, splitFields] at ih ⊢; simp [ih]

theorem fieldStr_fieldEnc (f : List Char) : fieldStr (fieldEnc f) = String.mk f := by
  simp [fieldStr, fieldEnc]

theorem decode_encode (t : Token) (h : t.claims.picture ≠ some "") :
    decodeToken (encodeToken t) = some t := by
  unfold decodeToken encodeToken
  rw [toPairs_pairsFlat]
  simp only [encPairs, splitFields_sep, splitFields_last]
  simp only [fieldStr_fieldEnc]
  cases t with
  | mk cl iat exp sig =>
    cases cl with
    | mk sub email name pic =>
      cases pic with
      | none => simp [fieldStr, fieldEnc]
      | some p =>
        have hp : p ≠ "" := by intro hp; exact h (by simp [hp])
        simp [fieldStr, fieldEnc, hp]

/-- Signing with a key then verifying with the same key yields the
claims exactly while `now < exp`, and `none` once expired. -/
theorem tokenClaims_picture_ok (u : User) : (tokenClaims u).picture ≠ some "" := by
  simp only [tokenClaims]
  split
  · rename_i hp
    simp only [ne_eq, Option.some.injEq]
    exact hp
  · simp

theorem verify_sign (u : User) (key : String) (iat now : Nat) :
    verifyToken (signToken u key iat) key now =
      if now < iat + THIRTY_DAYS_S then
        some { claims := tokenClaims u, iat := iat, exp := iat + THIRTY_DAYS_S }
      else none := by
  unfold verifyToken signToken
  rw [decode_encode _ (tokenClaims_picture_ok u)]
  by_cases h : now < iat + THIRTY_DAYS_S <;> simp [h]

theorem verify_sign_wrong_key (u : User) (key k2 : String) (iat now : Nat)
    (h : k2 ≠ key) : verifyToken (signToken u key iat) k2 now = none := by
  unfold verifyToken signToken
  rw [decode_encode _ (tokenClaims_picture_ok u)]
  simp [Ne.symm h]

/- ── Properties of `esc` ─────────────────────────────────────────── -/

theorem data_singleton (c : Char) : (String.singleton c).data = [c] := rfl

theorem escChar_no_lt (c : Char) : '<' ∉ (escChar c).data := by
  unfold escChar
  repeat' split
  · decide
  · decide
  · decide
  · decide
  · decide
  · rename_i h1 h2 h3 h4 h5
    rw [data_singleton]
    simp only [List.mem_singleton]
    intro h
    exact h2 h.symm

theorem escChar_no_gt (c : Char) : '>' ∉ (escChar c).data := by
  unfold escChar
  repeat' split
  · decide
  · decide
  · decide
  · decide
  · decide
  · rename_i h1 h2 h3 h4 h5
    rw [data_singleton]
    simp only [List.mem_singleton]
    intro h
    exact h3 h.symm

theorem escList_no_lt (l : List Char) : '<' ∉ (escList l).data := by
  induction l with
  | nil => simp [escList]
  | cons c r ih =>
    simp only [escList]
    intro hmem
    rw [String.data_append] at hmem
    rcases List.mem_append.1 hmem with h | h
    · exact escChar_no_lt c h
    · exact ih h

theorem esc_no_lt (s : String) : '<' ∉ (esc s).data := escList_no_lt s.data

theorem esc_count_lt (s : String) : ((esc s).data).count '<' = 0 :=
  List.count_eq_zero.2 (esc_no_lt s)

theorem isPrefixOf_mem {pat l : List Char} (h : pat.isPrefixOf l = true) :
    ∀ a ∈ pat, a ∈ l := by
  induction pat generalizing l with
  | nil => intro a ha; simp at ha
  | cons p ps ih =>
    cases l with
    | nil => simp [List.isPrefixOf] at h
    | cons b bs =>
      simp only [List.isPrefixOf, Bool.and_eq_true, beq_iff_eq] at h
      intro a ha
      rcases List.mem_cons.1 ha with rfl | ha'
      · simp [h.1]
      · exact List.mem_cons_of_mem _ (ih h.2 a ha')

theorem hasSub_mem {pat l : List Char} (h : hasSub pat l = true) :
    ∀ a ∈ pat, a ∈ l := by
  induction l with
  | nil =>
    simp only [hasSub, List.isEmpty_iff] at h
    subst h; intro a ha; simp at ha
  | cons c t ih =>
    simp only [hasSub, Bool.or_eq_true] at h
    rcases h with h | h
    · exact isPrefixOf_mem h
    · intro a ha; exact List.mem_cons_of_mem _ (ih h a ha)

theorem isPrefixOf_length {pat l : List Char} (h : pat.isPrefixOf l = true) :
    pat.length ≤ l.length := by
  induction pat generalizing l with
  | nil => simp
  | cons p ps ih =>
    cases l with
    | nil => simp [List.isPrefixOf] at h
    | cons b bs =>
      simp only [List.isPrefixOf, Bool.and_eq_true] at h
      simpa using Nat.succ_le_succ (ih h.2)

theorem hasSub_length {pat l : List Char} (h : hasSub pat l = true) :
    pat.length ≤ l.length := by
  induction l with
  | nil => simp only [hasSub, List.isEmpty_iff] at h; simp [h]
  | cons c t ih =>
    simp only [hasSub, Bool.or_eq_true] at h
    rcases h with h | h
    · exact isPrefixOf_length h
    · exact Nat.le_trans (ih h) (by simp)

/-- The escaped form of any string never contains a raw script tag. -/
theorem esc_no_script_tag (s : String) :
    hasSub ("<script>".data) ((esc s).data) = false := by
  cases h : hasSub ("<script>".data) ((esc s).data)
  · rfl
  · exact absurd (hasSub_mem h '<' (by decide)) (esc_no_lt s)


/- ── Length of encoded tokens (a token can never fit inside the
constant `/account` redirect target) ────────────────────────────── -/

theorem pairsFlat_length (l : List (Char × Char)) :
    (pairsFlat l).length = 2 * l.length := by
  induction l with
  | nil => rfl
  | cons p r ih =>
    have hstep : pairsFlat (p :: r) = p.1 :: p.2 :: pairsFlat r := rfl
    rw [hstep]
    simp [List.length_cons, ih]
    omega

theorem encodeToken_min_length (t : Token) : 12 ≤ (encodeToken t).length := by
  unfold encodeToken
  have hmk : ∀ l : List Char, (String.mk l).length = l.length := fun _ => rfl
  rw [hmk, pairsFlat_length]
  simp only [encPairs, List.length_append, List.length_cons]
  omega

theorem token_not_inside_account_url (t : Token) :
    hasSub (encodeToken t).data ("/account".data) = false := by
  cases h : hasSub (encodeToken t).data ("/account".data)
  · rfl
  · exfalso
    have h1 := hasSub_length h
    have h2 : (encodeToken t).data.length = (encodeToken t).length := rfl
    have h3 := encodeToken_min_length t
    have h4 : ("/account".data).length = 8 := by decide
    omega

/- ═══ Claims ═════════════════════════════════════════════════════ -/

/-- C2: for every identity record, verifying the token issued from it
with the same key returns exactly the stored claims while the current
time is before the 30-day expiry; once expiry has elapsed — or for a
wrongly-signed or malformed token — verification returns the single
invalid outcome `none`. -/
theorem token_roundtrip_and_expiry (u : User) (key : String) (iat now : Nat) :
    (now < iat + THIRTY_DAYS_S →
      verifyToken (signToken u key iat) key now =
        some { claims := tokenClaims u, iat := iat, exp := iat + THIRTY_DAYS_S })
    ∧ (iat + THIRTY_DAYS_S ≤ now → verifyToken (signToken u key iat) key now = none)
    ∧ (∀ k2, k2 ≠ key → verifyToken (signToken u key iat) k2 now = none)
    ∧ (∀ s, decodeToken s = none → verifyToken s key now = none) := by
  refine ⟨fun h => ?_, fun h => ?_,
    fun k2 hk => verify_sign_wrong_key u key k2 iat now hk, fun s hs => ?_⟩
  · rw [verify_sign]; simp [h]
  · rw [verify_sign]; simp [Nat.not_lt.2 h]
  · unfold verifyToken; rw [hs]

/-- Witness for C2 at a concrete identity, key and clock. -/
theorem token_roundtrip_and_expiry_witness :
    (100 < 0 + THIRTY_DAYS_S →
      verifyToken (signToken cxUser "secret" 0) "secret" 100 =
        some { claims := tokenClaims cxUser, iat := 0, exp := 0 + THIRTY_DAYS_S })
    ∧ (0 + THIRTY_DAYS_S ≤ 100 → verifyToken (signToken cxUser "secret" 0) "secret" 100 = none)
    ∧ (∀ k2, k2 ≠ "secret" → verifyToken (signToken cxUser "secret" 0) k2 100 = none)
    ∧ (∀ s, decodeToken s = none → verifyToken s "secret" 100 = none) :=
  token_roundtrip_and_expiry cxUser "secret" 0 100

/-- C3: a callback without an authorization code is rejected with 400
and a human-readable message before the provider is ever called. -/
theorem missing_code_rejected_no_provider_call (cfg : Config)
    (exchange : String → Option User) (now : Nat) (req : CallbackRequest)
    (h : req.code = none) :
    (authCallback cfg exchange now req).status = 400
    ∧ (authCallback cfg exchange now req).body =
        .text "Missing authorization code from WorkOS"
    ∧ (authCallback cfg exchange now req).providerCalls = 0 := by
  simp [authCallback, jsTruthy, h]

/-- Witness for C3 at a concrete code-less request. -/
theorem missing_code_rejected_no_provider_call_witness :
    cxReqNoCode.code = none
    ∧ ((authCallback cxConfig cxExchange 0 cxReqNoCode).status = 400
      ∧ (authCallback cxConfig cxExchange 0 cxReqNoCode).body =
          .text "Missing authorization code from WorkOS"
      ∧ (authCallback cxConfig cxExchange 0 cxReqNoCode).providerCalls = 0) :=
  ⟨rfl, missing_code_rejected_no_provider_call cxConfig cxExchange 0 cxReqNoCode rfl⟩

/-- When the state carries a nonce and no cookie value equals it, the
nonce check rejects. -/
theorem stateCheck_mismatch (nv : String) (src dev : JField)
    (cookie : Option String) (h : ∀ cv, cookie = some cv → cv ≠ nv) :
    stateCheck (some (.obj (.str nv) src dev)) cookie = none := by
  cases cookie with
  | none => rfl
  | some cv =>
    have hne := h cv rfl
    by_cases he : cv = ""
    · simp [stateCheck, he]
    · simp [stateCheck, he, JField.str.injEq, Ne.symm hne]

/-- C1: a callback whose `state` parses to an object carrying a nonce
is answered 403 (CSRF) whenever the nonce cookie is absent or holds a
different value, without calling the provider and without issuing a
token — for every possible provider behaviour. -/
theorem csrf_nonce_mismatch_rejected (cfg : Config)
    (exchange : String → Option User) (now : Nat) (req : CallbackRequest)
    (nv : String) (src dev : JField)
    (hcode : jsTruthy req.code = true)
    (hstate : req.state = some (.obj (.str nv) src dev))
    (hnonce : ∀ cv, req.oauthNonce = some cv → cv ≠ nv) :
    (authCallback cfg exchange now req).status = 403
    ∧ (authCallback cfg exchange now req).body =
        .text "OAuth state mismatch — possible CSRF. Please try signing in again."
    ∧ (authCallback cfg exchange now req).providerCalls = 0
    ∧ (authCallback cfg exchange now req).cookiesSet = [] := by
  have hsc : stateCheck req.state req.oauthNonce = none := by
    rw [hstate]; exact stateCheck_mismatch nv src dev req.oauthNonce hnonce
  simp [authCallback, hcode, hsc]

/-- Witness for C1: nonce `'a'` in the state, cookie `'b'`, a provider
that would accept the code — still 403 with zero provider calls. -/
theorem csrf_nonce_mismatch_rejected_witness :
    jsTruthy cxReqMismatch.code = true
    ∧ cxReqMismatch.state = some (.obj (.str "a") .absent .absent)
    ∧ ((authCallback cxConfig cxExchange 0 cxReqMismatch).status = 403
      ∧ (authCallback cxConfig cxExchange 0 cxReqMismatch).body =
          .text "OAuth state mismatch — possible CSRF. Please try signing in again."
      ∧ (authCallback cxConfig cxExchange 0 cxReqMismatch).providerCalls = 0
      ∧ (authCallback cxConfig cxExchange 0 cxReqMismatch).cookiesSet = []) :=
  ⟨rfl, rfl, csrf_nonce_mismatch_rejected cxConfig cxExchange 0 cxReqMismatch
    "a" .absent .absent rfl rfl (by intro cv hcv hne; cases hcv; simp at hne)⟩

/-- C4: a successful callback whose flow context resolved to
`source = 'web'` sets the 30-day session cookie and redirects to the
account view; the redirect target is the constant `/account`, which
cannot contain the token. -/
theorem web_source_redirects_to_account (cfg : Config)
    (exchange : String → Option User) (now : Nat) (req : CallbackRequest)
    (u : User) (dev : Option String)
    (hcode : jsTruthy req.code = true)
    (hsc : stateCheck req.state req.oauthNonce = some ("web", dev))
    (hex : exchange (req.code.getD "") = some u) :
    (authCallback cfg exchange now req).status = 302
    ∧ (authCallback cfg exchange now req).body = .redirectTo "/account"
    ∧ (authCallback cfg exchange now req).cookiesSet =
        [("deskly_token", signToken u cfg.key now, sessionCookieOpts cfg)]
    ∧ hasSub (signToken u cfg.key now).data ("/account".data) = false := by
  refine ⟨?_, ?_, ?_, token_not_inside_account_url _⟩ <;>
    simp [authCallback, hcode, hsc, hex]

/-- Witness for C4: matching nonce, `source = 'web'`, provider accepts. -/
theorem web_source_redirects_to_account_witness :
    jsTruthy cxReqWeb.code = true
    ∧ stateCheck cxReqWeb.state cxReqWeb.oauthNonce = some ("web", none)
    ∧ cxExchange (cxReqWeb.code.getD "") = some cxUser
    ∧ ((authCallback cxConfig cxExchange 0 cxReqWeb).status = 302
      ∧ (authCallback cxConfig cxExchange 0 cxReqWeb).body = .redirectTo "/account"
      ∧ (authCallback cxConfig cxExchange 0 cxReqWeb).cookiesSet =
          [("deskly_token", signToken cxUser cxConfig.key 0, sessionCookieOpts cxConfig)]
      ∧ hasSub (signToken cxUser cxConfig.key 0).data ("/account".data) = false) :=
  ⟨rfl, rfl, rfl,
    web_source_redirects_to_account cxConfig cxExchange 0 cxReqWeb cxUser none rfl rfl rfl⟩

/-- C5: a successful callback whose flow context resolved to any
source other than `'web'` (including the default when state is absent
or malformed) sets the session cookie and renders the desktop
deep-link page, whose deep link is
`<scheme>://auth/callback?token=<t>` with `t` the URL-encoded token,
and that token verifies back to the exchanged identity's claims at any
time before expiry. -/
theorem desktop_source_renders_deeplink_page (cfg : Config)
    (exchange : String → Option User) (now : Nat) (req : CallbackRequest)
    (u : User) (src : String) (dev : Option String)
    (hcode : jsTruthy req.code = true)
    (hsc : stateCheck req.state req.oauthNonce = some (src, dev))
    (hweb : src ≠ "web")
    (hex : exchange (req.code.getD "") = some u) :
    (authCallback cfg exchange now req).status = 200
    ∧ (authCallback cfg exchange now req).body =
        .html (desktopCallbackPage u
          (cfg.desktopScheme ++ "://auth/callback?token=" ++
            encodeURIComponent (signToken u cfg.key now)))
    ∧ (authCallback cfg exchange now req).cookiesSet =
        [("deskly_token", signToken u cfg.key now, sessionCookieOpts cfg)]
    ∧ ∀ t, t < now + THIRTY_DAYS_S →
        verifyToken (signToken u cfg.key now) cfg.key t =
          some { claims := tokenClaims u, iat := now, exp := now + THIRTY_DAYS_S } := by
  refine ⟨?_, ?_, ?_, fun t ht => by rw [verify_sign]; simp [ht]⟩ <;>
    simp [authCallback, hcode, hsc, hweb, hex]

/-- Witness for C5: no state at all, so the context defaults to
`desktop`; the provider accepts. -/
theorem desktop_source_renders_deeplink_page_witness :
    jsTruthy cxReqDesktop.code = true
    ∧ stateCheck cxReqDesktop.state cxReqDesktop.oauthNonce = some ("desktop", none)
    ∧ cxExchange (cxReqDesktop.code.getD "") = some cxUser
    ∧ ((authCallback cxConfig cxExchange 0 cxReqDesktop).status = 200
      ∧ (authCallback cxConfig cxExchange 0 cxReqDesktop).body =
          .html (desktopCallbackPage cxUser
            (cxConfig.desktopScheme ++ "://auth/callback?token=" ++
              encodeURIComponent (signToken cxUser cxConfig.key 0)))
      ∧ (authCallback cxConfig cxExchange 0 cxReqDesktop).cookiesSet =
          [("deskly_token", signToken cxUser cxConfig.key 0, sessionCookieOpts cxConfig)]
      ∧ ∀ t, t < 0 + THIRTY_DAYS_S →
          verifyToken (signToken cxUser cxConfig.key 0) cxConfig.key t =
            some { claims := tokenClaims cxUser, iat := 0, exp := 0 + THIRTY_DAYS_S }) :=
  ⟨rfl, rfl, rfl,
    desktop_source_renders_deeplink_page cxConfig cxExchange 0 cxReqDesktop cxUser
      "desktop" none rfl rfl (by decide) rfl⟩

/-- C6 counterexample: a callback that reaches the nonce check and
mismatches (status 403) leaves `cookiesCleared` empty — the handler
returns from the 403 branch before the `clearCookie('oauth_nonce')`
line, so the nonce cookie is NOT cleared on the CSRF-reject path. -/
theorem nonce_cleared_regardless_counterexample :
    (authCallback cxConfig cxExchange 0 cxReqMismatch).status = 403
    ∧ (authCallback cxConfig cxExchange 0 cxReqMismatch).cookiesCleared = [] := by
  decide

/-- C6 amended: the nonce cookie is cleared exactly on the requests
that pass the nonce check (also when state is absent/malformed); on a
mismatch the handler responds 403 without clearing it. -/
theorem nonce_cookie_clearing_amended (cfg : Config)
    (exchange : String → Option User) (now : Nat) (req : CallbackRequest)
    (hcode : jsTruthy req.code = true) :
    ((stateCheck req.state req.oauthNonce).isSome →
      (authCallback cfg exchange now req).cookiesCleared =
        [("oauth_nonce", some "/auth/callback")])
    ∧ (stateCheck req.state req.oauthNonce = none →
      (authCallback cfg exchange now req).status = 403
      ∧ (authCallback cfg exchange now req).cookiesCleared = []) := by
  constructor
  · intro hs
    obtain ⟨⟨src, dev⟩, hsc⟩ := Option.isSome_iff_exists.1 hs
    cases hex : exchange (req.code.getD "") with
    | none => simp [authCallback, hcode, hsc, hex]
    | some u => by_cases hw : src = "web" <;> simp [authCallback, hcode, hsc, hex, hw]
  · intro hsc
    simp [authCallback, hcode, hsc]

/-- Witness for the amended C6: the matched `web` request does clear
the nonce cookie; the mismatched request responds 403 without
clearing. -/
theorem nonce_cookie_clearing_amended_witness :
    (authCallback cxConfig cxExchange 0 cxReqWeb).cookiesCleared =
        [("oauth_nonce", some "/auth/callback")]
    ∧ (authCallback cxConfig cxExchange 0 cxReqMismatch).status = 403
    ∧ (authCallback cxConfig cxExchange 0 cxReqMismatch).cookiesCleared = [] := by
  have hA := (nonce_cookie_clearing_amended cxConfig cxExchange 0 cxReqWeb rfl).1
    (by decide)
  have hB := (nonce_cookie_clearing_amended cxConfig cxExchange 0 cxReqMismatch rfl).2
    (by decide)
  exact ⟨hA, hB.1, hB.2⟩

/- `<`-counts of the static template parts. -/

set_option maxRecDepth 8192 in
theorem count_dcp0 : dcp0.data.count '<' = 15 := by decide

set_option maxRecDepth 8192 in
theorem count_dcp1 : dcp1.data.count '<' = 2 := by decide

set_option maxRecDepth 8192 in
theorem count_dcp2 : dcp2.data.count '<' = 4 := by decide

set_option maxRecDepth 8192 in
theorem count_dcp3 : dcp3.data.count '<' = 3 := by decide

set_option maxRecDepth 8192 in
theorem count_dcp4 : dcp4.data.count '<' = 3 := by decide

set_option maxRecDepth 8192 in
theorem count_dcp5 : dcp5.data.count '<' = 4 := by decide

set_option maxRecDepth 8192 in
theorem count_dcp6 : dcp6.data.count '<' = 3 := by decide

set_option maxRecDepth 16384 in
theorem count_acc0 : acc0.data.count '<' = 13 := by decide

set_option maxRecDepth 8192 in
theorem count_acc1 : acc1.data.count '<' = 2 := by decide

set_option maxRecDepth 8192 in
theorem count_acc2 : acc2.data.count '<' = 2 := by decide

set_option maxRecDepth 8192 in
theorem count_acc3 : acc3.data.count '<' = 5 := by decide

set_option maxRecDepth 8192 in
theorem count_acc4 : acc4.data.count '<' = 15 := by decide

/-- C7: both rendered pages interpolate provider-supplied strings and
the deep link only through `esc`, whose output never contains a raw
`<script>` tag (it contains no `<` at all); consequently the number of
`<` characters — hence of raw tags — in each rendered body is a
constant of the static template, independent of every untrusted
input. -/
theorem rendered_pages_escape_untrusted_strings (u : User) (dl : String)
    (c : Claims) (s : String) :
    hasSub ("<script>".data) ((esc s).data) = false
    ∧ (desktopCallbackPage u dl).data.count '<' = 34
    ∧ (accountPage c).data.count '<' = (if optTruthy c.picture then 38 else 37) := by
  refine ⟨esc_no_script_tag s, ?_, ?_⟩
  · simp [desktopCallbackPage, String.data_append, List.count_append, esc_count_lt,
      count_dcp0, count_dcp1, count_dcp2, count_dcp3, count_dcp4, count_dcp5,
      count_dcp6]
  · by_cases hp : optTruthy c.picture = true
    · simp [accountPage, hp, String.data_append, List.count_append, esc_count_lt,
        count_acc0, count_acc1, count_acc2, count_acc3, count_acc4]
    · simp only [Bool.not_eq_true] at hp
      simp [accountPage, hp, String.data_append, List.count_append, esc_count_lt,
        count_acc0, count_acc1, count_acc2, count_acc3, count_acc4]

/-- C8: `/api/me` without a `Bearer` Authorization header and without
a truthy session cookie answers 401 with an error body and no claims;
likewise whenever the presented token fails verification, whether it
arrived in a `Bearer` header or in the `deskly_token` cookie
fallback. -/
theorem apime_unauthenticated_401 (key : String) (now : Nat)
    (hdr cookie : Option String) :
    ((hdr = none ∨ ∃ h, hdr = some h ∧ strStartsWith h "Bearer " = false) →
      jsTruthy cookie = false →
      (apiMe key now hdr cookie).status = 401
      ∧ ∃ m, (apiMe key now hdr cookie).body = .err m)
    ∧ (∀ h, hdr = some h → strStartsWith h "Bearer " = true →
      verifyToken (strSliceFrom h 7) key now = none →
      (apiMe key now hdr cookie).status = 401
      ∧ ∃ m, (apiMe key now hdr cookie).body = .err m)
    ∧ (∀ cv, (hdr = none ∨ ∃ h, hdr = some h ∧ strStartsWith h "Bearer " = false) →
      cookie = some cv → cv ≠ "" →
      verifyToken cv key now = none →
      (apiMe key now hdr cookie).status = 401
      ∧ ∃ m, (apiMe key now hdr cookie).body = .err m) := by
  refine ⟨?_, ?_, ?_⟩
  · rintro (rfl | ⟨h, rfl, hb⟩) hc
    · exact ⟨by simp [apiMe, hc], "Missing token", by simp [apiMe, hc]⟩
    · exact ⟨by simp [apiMe, hb, hc], "Missing token", by simp [apiMe, hb, hc]⟩
  · rintro h rfl hb hv
    by_cases he : strSliceFrom h 7 = ""
    · exact ⟨by simp [apiMe, hb, he], "Missing token", by simp [apiMe, hb, he]⟩
    · exact ⟨by simp [apiMe, hb, he, hv], "Invalid or expired token",
        by simp [apiMe, hb, he, hv]⟩
  · rintro cv (rfl | ⟨h, rfl, hb⟩) rfl hcv hv
    · exact ⟨by simp [apiMe, jsTruthy, hcv, hv], "Invalid or expired token",
        by simp [apiMe, jsTruthy, hcv, hv]⟩
    · exact ⟨by simp [apiMe, jsTruthy, hb, hcv, hv], "Invalid or expired token",
        by simp [apiMe, jsTruthy, hb, hcv, hv]⟩

/-- Witness for C8: no header and no cookie; a Bearer header whose
token is garbage; and no header with a truthy cookie holding an
unverifiable token — each answers 401 with an error body. -/
theorem apime_unauthenticated_401_witness :
    jsTruthy (none : Option String) = false
    ∧ ((apiMe "secret" 0 none none).status = 401
      ∧ ∃ m, (apiMe "secret" 0 none none).body = .err m)
    ∧ strStartsWith "Bearer x" "Bearer " = true
    ∧ verifyToken (strSliceFrom "Bearer x" 7) "secret" 0 = none
    ∧ ((apiMe "secret" 0 (some "Bearer x") none).status = 401
      ∧ ∃ m, (apiMe "secret" 0 (some "Bearer x") none).body = .err m)
    ∧ verifyToken "garbage" "secret" 0 = none
    ∧ ((apiMe "secret" 0 none (some "garbage")).status = 401
      ∧ ∃ m, (apiMe "secret" 0 none (some "garbage")).body = .err m) := by
  refine ⟨rfl, (apime_unauthenticated_401 "secret" 0 none none).1 (Or.inl rfl) rfl,
    by decide, by decide,
    (apime_unauthenticated_401 "secret" 0 (some "Bearer x") none).2.1 "Bearer x" rfl
      (by decide) (by decide),
    by decide,
    (apime_unauthenticated_401 "secret" 0 none (some "garbage")).2.2 "garbage"
      (Or.inl rfl) rfl (by decide) (by decide)⟩

/-- C10: when the Authorization header starts with `Bearer `, the
`/api/me` response is a function of the header alone — the session
cookie is never consulted. -/
theorem apime_bearer_ignores_cookie (key : String) (now : Nat) (h : String)
    (c1 c2 : Option String) (hb : strStartsWith h "Bearer " = true) :
    apiMe key now (some h) c1 = apiMe key now (some h) c2 := by
  simp [apiMe, hb]

/-- Witness for C10: same Bearer header, two different cookies, equal
responses. -/
theorem apime_bearer_ignores_cookie_witness :
    strStartsWith "Bearer x" "Bearer " = true
    ∧ apiMe "secret" 0 (some "Bearer x") (some "cookie1") =
        apiMe "secret" 0 (some "Bearer x") none :=
  ⟨by decide,
    apime_bearer_ignores_cookie "secret" 0 "Bearer x" (some "cookie1") none (by decide)⟩

/-- C9 counterexample: for the identity with no first name and email
`a@b.com`, the token's display-name field is the local part `"a"`
while the desktop page's displayed name is the full email `a@b.com` —
they differ, so the page does not display the token's resolved name. -/
theorem display_name_claim_counterexample :
    (tokenClaims cxUser).name = "a"
    ∧ resolveDisplayName cxUser = "a@b.com"
    ∧ (tokenClaims cxUser).name ≠ resolveDisplayName cxUser := by
  refine ⟨by decide, by decide, by decide⟩

/-- C9 amended: the issued token's display-name field is the first
name (with last name appended when present) and otherwise the email
local part; the desktop page displays that same name when a first name
is present, but the FULL email address when it is absent. -/
theorem display_name_amended (u : User) :
    (tokenClaims u).name =
      (if u.firstName = "" then emailLocalPart u.email else resolveDisplayName u)
    ∧ resolveDisplayName u =
      (if u.firstName = "" then u.email else (tokenClaims u).name) := by
  by_cases h : u.firstName = "" <;>
    simp [tokenClaims, resolveDisplayName, h]
